import Mathlib

/-!
Verification development for the USB write-and-verify endurance tester.

The repository contains several Go variants of the same tool:
  src/unnamed/part_000      : BLAKE2b-based tester (generateFixedData, fixedReader,
                              getDiskFreeSpace, writeWithProgress, writeAndVerify, main)
  src/main.go               : SHA1-based Windows tester (fixedDataBlock, writeFixedFile,
                              getDiskFreeSpace, calculateSHA1, main)
  src/free_space_linux.go   : statfs probe (getLinuxFreeSpace) plus the chunked
                              BLAKE2b tester (generateFixedBlock, writeFileToUsb,
                              verifyFileHash, runSingleTest, main)

Bytes are modelled as Nat (values < 256 in practice; none of the proved
properties depends on the bound).  Go byte slices are modelled as List Nat.
Cryptographic hash functions (blake2b.New512 / Sum512 / New256, sha1) are
modelled as an explicit parameter H : List Nat -> List Nat, since every claim
treats them as an opaque deterministic function of the hashed bytes.
Filesystem activity is modelled by an explicit trace of FsOp events.
-/

namespace UsbCheck

/-- Go builtin copy(dst, src): overwrites the first min(len dst, len src)
entries of dst with the corresponding entries of src, leaving the rest of dst
unchanged, and returns the modified dst. -/
def goCopy (dst src : List Nat) : List Nat :=
  src.take dst.length ++ dst.drop (min dst.length src.length)

/-- Go statement copy(p[i:], src) as a pure update of the slice p. -/
def writeInto (p : List Nat) (i : Nat) (src : List Nat) : List Nat :=
  p.take i ++ goCopy (p.drop i) src

/-- Go slice expression xs[:k] for a slice whose capacity equals its length
(such as the freshly allocated result of hash.Sum(nil)).  Slicing past the
capacity is a runtime panic, modelled as none. -/
def goSliceTo (xs : List Nat) (k : Nat) : Option (List Nat) :=
  if k ≤ xs.length then some (xs.take k) else none

/-- Filesystem events performed by the embedded functions.  A write event
records only the byte count of the write, which is what the resource and
effect claims are about. -/
inductive FsOp where
  | create : FsOp
  | write : Nat → FsOp
  | sync : FsOp
  | remove : FsOp
  | close : FsOp
deriving DecidableEq

/-- Tests whether an event is a file deletion. -/
def FsOp.isRemove : FsOp → Bool
  | .remove => true
  | _ => false

/-- Tests whether an event is a durability flush. -/
def FsOp.isSync : FsOp → Bool
  | .sync => true
  | _ => false

/-- Tests whether an event is a data write. -/
def FsOp.isWrite : FsOp → Bool
  | .write _ => true
  | _ => false

/-- Byte count of a write event, 0 for every other event. -/
def FsOp.writeLen : FsOp → Nat
  | .write n => n
  | _ => 0

/-! ### part_000: fixedReader and generateFixedData -/

/-- Loop of fixedReader.Read (src/unnamed/part_000 lines 81-87):
for i := n; i < len(p); i += len(hashBytes) { copy(p[i:], hashBytes[:len(p)-i]) }.
The slice hashBytes[:len(p)-i] panics (none) as soon as len(p)-i exceeds the
64-byte capacity of hashBytes.  The fuel argument only bounds the recursion;
the callers pass enough fuel for every terminating run of the Go loop. -/
def fixedReaderLoop (hashBytes : List Nat) : Nat → List Nat → Nat → Option (List Nat)
  | 0, _, _ => none
  | fuel + 1, p, i =>
    if i < p.length then
      match goSliceTo hashBytes (p.length - i) with
      | none => none
      | some src => fixedReaderLoop hashBytes fuel (writeInto p i src) (i + hashBytes.length)
    else some p

/-- fixedReader.Read (src/unnamed/part_000 lines 73-89).  hashBytes is the
digest h.Sum(nil) of the seed; p is the destination buffer.  Returns the
filled buffer, or none when the Go code panics. -/
def fixedReaderRead (hashBytes p : List Nat) : Option (List Nat) :=
  let n := min p.length hashBytes.length
  let p1 := writeInto p 0 hashBytes
  if n < p.length then fixedReaderLoop hashBytes (p.length + 1) p1 n else some p1

/-- Buffer allocated by generateFixedData (src/unnamed/part_000 line 57):
data := make([]byte, size).  The whole payload is materialised at once. -/
def generateFixedDataBuffer (size : Nat) : List Nat :=
  List.replicate size 0

/-- generateFixedData (src/unnamed/part_000 lines 43-65).  The seed argument
models the 32 random bytes drawn from crypto/rand on every call (line 46);
H models BLAKE2b-512.  io.ReadFull performs a single fixedReader.Read call
covering the whole buffer (and no call at all for an empty buffer).  The
result pairs the generated data with its checksum blake2b.Sum512(data);
none models the runtime panic inside fixedReader.Read. -/
def generateFixedData (H : List Nat → List Nat) (seed : List Nat) (size : Nat) :
    Option (List Nat × List Nat) :=
  let hashBytes := H seed
  match (if size = 0 then some (generateFixedDataBuffer size)
         else fixedReaderRead hashBytes (generateFixedDataBuffer size)) with
  | none => none
  | some data => some (data, H data)

/-! ### free_space_linux.go: generateFixedBlock -/

/-- Seed string literal of generateFixedBlock (src/free_space_linux.go line 93). -/
def fixedSeedString : String := "usb-hash-check-fixed-seed-2026"

/-- Seed of generateFixedBlock: a 32-byte buffer holding the fixed constant
string (src/free_space_linux.go lines 92-93), zero padded. -/
def generateFixedBlockSeed : List Nat :=
  goCopy (List.replicate 32 0) (fixedSeedString.toList.map Char.toNat)

/-- Fill loop of generateFixedBlock (src/free_space_linux.go lines 101-111).
Each iteration recomputes chunk := H(seedHash) (a constant value, passed in
once), copies it at position pos, advances pos by len(chunk), and breaks when
pos+len(chunk) would exceed blockSize. -/
def generateFixedBlockLoop (chunk : List Nat) (blockSize : Nat) :
    Nat → List Nat → Nat → List Nat
  | 0, block, _ => block
  | fuel + 1, block, pos =>
    if pos < blockSize then
      let block2 := writeInto block pos chunk
      let pos2 := pos + chunk.length
      if blockSize < pos2 + chunk.length then block2
      else generateFixedBlockLoop chunk blockSize fuel block2 pos2
    else block

/-- generateFixedBlock (src/free_space_linux.go lines 90-113): derives
seedHash := H(seed) from the fixed constant seed and tiles H(seedHash) into a
fresh zero block of the requested size. -/
def generateFixedBlock (H : List Nat → List Nat) (blockSize : Nat) : List Nat :=
  let seedHash := H generateFixedBlockSeed
  generateFixedBlockLoop (H seedHash) blockSize (blockSize + 1) (List.replicate blockSize 0) 0

/-! ### free_space_linux.go: chunked writer writeFileToUsb -/

/-- Chunk size constant (src/free_space_linux.go line 87): 64 MiB. -/
def chunkSize : Nat := 64 * 1024 * 1024

/-- Per-iteration write size of writeFileToUsb (src/free_space_linux.go
lines 144-149): chunkSize, clipped to the remaining byte count for the last
chunk. -/
def usbWriteSize (totalSize written : Nat) : Nat :=
  if chunkSize > totalSize - written then totalSize - written else chunkSize

/-- Write loop of writeFileToUsb (src/free_space_linux.go lines 141-161),
event view.  writeOk k tells whether the k-th f.Write call succeeds; a failed
write aborts with an error (none) and produces no event.  Each successful
write transfers usbWriteSize bytes. -/
def writeFileToUsbLoopOps (writeOk : Nat → Bool) (totalSize : Nat) :
    Nat → Nat → Nat → List FsOp × Option Nat
  | 0, written, _ => ([], some written)
  | fuel + 1, written, k =>
    if written < totalSize then
      if writeOk k then
        let r := writeFileToUsbLoopOps writeOk totalSize fuel
          (written + usbWriteSize totalSize written) (k + 1)
        (FsOp.write (usbWriteSize totalSize written) :: r.1, r.2)
      else ([], none)
    else ([], some written)

/-- writeFileToUsb (src/free_space_linux.go lines 127-164), event view:
os.Create, the chunked write loop, and the deferred f.Close.  There is no
Sync call and no Remove call anywhere in the function; the file is left in
place on both the success and the error path.  The second component is
some written on success and none on a write error. -/
def writeFileToUsbOps (writeOk : Nat → Bool) (totalSize : Nat) : List FsOp × Option Nat :=
  let r := writeFileToUsbLoopOps writeOk totalSize (totalSize + 1) 0 0
  (FsOp.create :: r.1 ++ [FsOp.close], r.2)

/-- Write loop of writeFileToUsb, content view, for runs where every write
succeeds: the bytes that reach the file are fixedBlock[:writeSize] per
iteration (src/free_space_linux.go line 152). -/
def writeFileToUsbContentLoop (fixedBlock : List Nat) (totalSize : Nat) :
    Nat → Nat → List Nat
  | 0, _ => []
  | fuel + 1, written =>
    if written < totalSize then
      fixedBlock.take (usbWriteSize totalSize written) ++
        writeFileToUsbContentLoop fixedBlock totalSize fuel (written + usbWriteSize totalSize written)
    else []

/-- File content produced by a fully successful writeFileToUsb run: the
fixed block generated by generateFixedBlock(h, chunkSize) written in chunks
until totalSize bytes are on the medium. -/
def writeFileToUsbContent (H : List Nat → List Nat) (totalSize : Nat) : List Nat :=
  writeFileToUsbContentLoop (generateFixedBlock H chunkSize) totalSize (totalSize + 1) 0

/-! ### main.go: fixedDataBlock and writeFixedFile -/

/-- fixedDataBlock (src/main.go lines 20-28): a 100 MiB block whose i-th byte
is i mod 256. -/
def fixedDataBlock : List Nat :=
  (List.range (100 * 1024 * 1024)).map (fun i => i % 256)

/-- Per-iteration write size of writeFixedFile (src/main.go lines 75-78):
blockSize, clipped to the remaining byte count for the last block. -/
def fixedWriteSize (blockSize remaining : Nat) : Nat :=
  if remaining < blockSize then remaining else blockSize

/-- Write loop of writeFixedFile (src/main.go lines 74-92), event view.
writeOk k tells whether the k-th f.Write call succeeds.  On a write error the
function itself calls os.Remove(filePath) (line 83) before returning the
error; the Bool result is the success flag of the loop. -/
def writeFixedFileLoopOps (blockSize : Nat) (writeOk : Nat → Bool) :
    Nat → Nat → Nat → List FsOp × Bool
  | 0, _, _ => ([], true)
  | fuel + 1, remaining, k =>
    if remaining = 0 then ([], true)
    else
      if writeOk k then
        let r := writeFixedFileLoopOps blockSize writeOk fuel
          (remaining - fixedWriteSize blockSize remaining) (k + 1)
        (FsOp.write (fixedWriteSize blockSize remaining) :: r.1, r.2)
      else ([FsOp.remove], false)

/-- writeFixedFile (src/main.go lines 59-103), event view, parametric in
blockSize = len(fixedDataBlock): os.Create, the write loop, then f.Sync
(which on failure also triggers os.Remove, line 96), and the deferred
f.Close on every path.  The Bool result is overall success. -/
def writeFixedFileOps (blockSize freeSpace : Nat) (writeOk : Nat → Bool) (syncOk : Bool) :
    List FsOp × Bool :=
  let r := writeFixedFileLoopOps blockSize writeOk (freeSpace + 1) freeSpace 0
  if r.2 then
    if syncOk then (FsOp.create :: r.1 ++ [FsOp.sync, FsOp.close], true)
    else (FsOp.create :: r.1 ++ [FsOp.sync, FsOp.remove, FsOp.close], false)
  else (FsOp.create :: r.1 ++ [FsOp.close], false)

/-- writeFixedFile as called by src/main.go, with blockSize instantiated to
len(fixedDataBlock) (line 61). -/
def writeFixedFileRun (freeSpace : Nat) (writeOk : Nat → Bool) (syncOk : Bool) :
    List FsOp × Bool :=
  writeFixedFileOps fixedDataBlock.length freeSpace writeOk syncOk

/-- Write loop of writeFixedFile, content view, for runs where every write
succeeds: each iteration appends fixedDataBlock[:writeSize]
(src/main.go line 81). -/
def writeFixedFileContentLoop (block : List Nat) : Nat → Nat → List Nat
  | 0, _ => []
  | fuel + 1, remaining =>
    if remaining = 0 then []
    else
      block.take (fixedWriteSize block.length remaining) ++
        writeFixedFileContentLoop block fuel (remaining - fixedWriteSize block.length remaining)

/-- File content produced by a fully successful writeFixedFile run. -/
def writeFixedFileContent (freeSpace : Nat) : List Nat :=
  writeFixedFileContentLoop fixedDataBlock (freeSpace + 1) freeSpace

/-! ### Free-space probes -/

/-- getLinuxFreeSpace (src/free_space_linux.go lines 12-19): a statfs call,
which only reads filesystem statistics.  It performs no filesystem operation
and returns Bsize * Bavail. -/
def getLinuxFreeSpace (bsize bavail : Nat) : List FsOp × Nat :=
  ([], bsize * bavail)

/-- Safety cap of getDiskFreeSpace (src/unnamed/part_000 line 105): 100 GiB. -/
def maxTestSize : Nat := 100 * 1024 * 1024 * 1024

/-- Probe loop of getDiskFreeSpace (src/unnamed/part_000 lines 104-116): it
keeps writing 1 MiB buffers to the temp file until a write fails or the
100 GiB cap is reached.  cap is the number of bytes the device accepts; a
write of the 1 MiB buffer succeeds while written+1MiB stays at or below cap.
Returns the event list and the reported free byte count. -/
def getDiskFreeSpaceLoop (cap : Nat) : Nat → Nat → List FsOp × Nat
  | 0, written => ([], written)
  | fuel + 1, written =>
    if written < maxTestSize then
      if written + 1048576 ≤ cap then
        let r := getDiskFreeSpaceLoop cap fuel (written + 1048576)
        (FsOp.write 1048576 :: r.1, r.2)
      else ([], written)
    else ([], maxTestSize)

/-- getDiskFreeSpace (src/unnamed/part_000 lines 92-117): creates the temp
file .tmp_space_check, fills it until the disk is full, and the deferred
cleanup removes the temp file and closes it. -/
def getDiskFreeSpaceOps (cap : Nat) : List FsOp × Nat :=
  let r := getDiskFreeSpaceLoop cap (maxTestSize / 1048576 + 1) 0
  (FsOp.create :: r.1 ++ [FsOp.remove, FsOp.close], r.2)

/-! ### main.go: sizing and the round loop -/

/-- Reserve constant of src/main.go line 191: 1 MiB. -/
def reserveSpace : Nat := 1024 * 1024

/-- Sizing step of src/main.go lines 190-196: the round sequence aborts when
freeSpace < reserveSpace (strictly below), otherwise the write target for
every round is freeSpace - reserveSpace. -/
def mainGoSizing (freeSpace : Nat) : Option Nat :=
  if freeSpace < reserveSpace then none else some (freeSpace - reserveSpace)

/-- Round write targets of src/main.go lines 178-212 for a run in which every
round proceeds: getDiskFreeSpace is called exactly once, before the loop
(line 179), so every one of the five rounds is sized from query number 0 of
the query stream q.  Returns none when the single measurement is below the
reserve. -/
def mainGoRoundTargets (q : Nat → Nat) : Option (List Nat) :=
  let freeSpace := q 0
  if freeSpace < reserveSpace then none
  else some (List.replicate 5 (freeSpace - reserveSpace))

/-! ### part_000: sizing, digest comparison and the round pipeline -/

/-- Error message of the digest comparison (src/unnamed/part_000 line 261).
It is a fixed string: neither digest value occurs in it. -/
def checksumMismatchMsg : String := "校验失败: 写入前后校验和不一致"

/-- Hex digit character, as produced by fmt.Sprintf %x. -/
def hexDigitChar (n : Nat) : Char :=
  if n < 10 then Char.ofNat (48 + n) else Char.ofNat (87 + n)

/-- Lowercase hex encoding of a byte list, as produced by fmt.Sprintf %x
(src/unnamed/part_000 line 265). -/
def hexChars (bs : List Nat) : List Char :=
  bs.foldr (fun b acc => hexDigitChar (b / 16) :: hexDigitChar (b % 16) :: acc) []

/-- Hex string of a byte list. -/
def hexString (bs : List Nat) : String :=
  String.mk (hexChars bs)

/-- Tests whether the second character list starts with the first. -/
def startsWithChars : List Char → List Char → Bool
  | [], _ => true
  | _ :: _, [] => false
  | p :: ps, c :: cs => p == c && startsWithChars ps cs

/-- Tests whether pat occurs as a contiguous subsequence of the text. -/
def occursInChars (pat : List Char) : List Char → Bool
  | [] => startsWithChars pat []
  | c :: cs => startsWithChars pat (c :: cs) || occursInChars pat cs

/-- Sizing step of writeAndVerify (src/unnamed/part_000 lines 204-213), on
Int like the Go int64 values: fail when freeSpace < blockSize, then reserve
100 MiB and fail when the remainder is below blockSize, otherwise the round
writes actualWriteSize bytes. -/
def writeAndVerifySizing (blockSize freeSpace : Int) : Except String Int :=
  if freeSpace < blockSize then
    Except.error ("剩余空间不足（" ++ toString freeSpace ++ "字节 < " ++ toString blockSize ++ "字节）")
  else
    let actualWriteSize := freeSpace - 100 * 1024 * 1024
    if actualWriteSize < blockSize then
      Except.error ("预留空间后可用空间不足（" ++ toString actualWriteSize ++ "字节 < " ++ toString blockSize ++ "字节）")
    else Except.ok actualWriteSize

/-- writeAndVerify (src/unnamed/part_000 lines 196-275) as a pure pipeline.
freeSpace is the fresh measurement returned by getDiskFreeSpace for this
round, seed the random seed drawn by generateFixedData, and medium maps the
written bytes to the bytes the medium returns on read-back (id for a healthy
device).  File create/write/sync/open/remove are modelled as succeeding; the
claims settled on this pipeline concern sizing, measurement use and the
digest comparison of lines 260-262.  The verify checksum is the BLAKE2b
digest of the bytes read back from the file; a mismatch returns the fixed
error message, a match returns the hex checksum.  none models the panic
inside generateFixedData. -/
def writeAndVerifyRound (H : List Nat → List Nat) (blockSize freeSpace : Int)
    (seed : List Nat) (medium : List Nat → List Nat) : Option (Except String String) :=
  match writeAndVerifySizing blockSize freeSpace with
  | Except.error e => some (Except.error e)
  | Except.ok actualWriteSize =>
    match generateFixedData H seed actualWriteSize.toNat with
    | none => none
    | some (data, checksum) =>
      let verifyChecksum := H (medium data)
      if verifyChecksum ≠ checksum then some (Except.error checksumMismatchMsg)
      else some (Except.ok (hexString checksum))

/-- Tests whether a round result lets the main loop continue: a round that
returned an error hits log.Fatalf, and a panic (none) ends the process. -/
def roundIsOk : Option (Except String String) → Bool
  | some (Except.ok _) => true
  | _ => false

/-- Round loop of src/unnamed/part_000 main (lines 297-304): rounds run in
order; round i calls writeAndVerify, which queries the free space afresh
(call number i of the query stream q) and draws a fresh random seed
(seed i).  log.Fatalf stops the run at the first failed round, and a panic
(none) likewise ends the process. -/
def part000Loop (H : List Nat → List Nat) (blockSize : Int) (seed : Nat → List Nat)
    (medium : List Nat → List Nat) (q : Nat → Int) :
    Nat → Nat → List (Option (Except String String))
  | _, 0 => []
  | i, r + 1 =>
    let res := writeAndVerifyRound H blockSize (q i) (seed i) medium
    if roundIsOk res then res :: part000Loop H blockSize seed medium q (i + 1) r
    else [res]

/-- Concrete 64-byte hash function used to instantiate H in witnesses and
counterexamples: a stand-in with the BLAKE2b-512 output length. -/
def sampleHash (s : List Nat) : List Nat :=
  (List.range 64).map (fun i => (i + s.headD 0) % 256)

/-! ## Helper lemmas -/

theorem goCopy_length (dst src : List Nat) : (goCopy dst src).length = dst.length := by
  simp only [goCopy, List.length_append, List.length_take, List.length_drop]
  omega

theorem writeInto_length (p : List Nat) (i : Nat) (src : List Nat) :
    (writeInto p i src).length = p.length := by
  simp only [writeInto, List.length_append, List.length_take, goCopy_length, List.length_drop]
  omega

theorem fixedDataBlock_length : fixedDataBlock.length = 100 * 1024 * 1024 := by
  simp [fixedDataBlock]

theorem fixedReaderLoop_done (hashBytes p : List Nat) (fuel i : Nat) (hfuel : 0 < fuel)
    (hi : p.length ≤ i) : fixedReaderLoop hashBytes fuel p i = some p := by
  cases fuel with
  | zero => omega
  | succ f => simp [fixedReaderLoop, Nat.not_lt.mpr hi]

/-! ## C10 and related evaluation facts -/

set_option maxRecDepth 8192

/-- C10: the claim states that fixedReader.Read fills any destination buffer
and returns nil, in particular for sizes beyond two digest lengths, and that
generateFixedData therefore succeeds for every size.  The code does not: for
a destination of 129 bytes the first loop iteration evaluates
hashBytes[:len(p)-i] with len(p)-i = 65, which is past the 64-byte capacity
of the digest slice, so the Read (and with it generateFixedData, which is
called with multi-megabyte sizes by writeAndVerify) panics.  This theorem
evaluates the embedded code at the failing input. -/
theorem fixedReader_read_panics :
    fixedReaderRead (sampleHash [0]) (List.replicate 129 0) = none ∧
    generateFixedData sampleHash [0] 129 = none := by
  exact ⟨by decide, by decide⟩

/-! ## Behaviour of fixedReader.Read on the sizes where it does not panic -/

theorem fixedReaderRead_replicate (hb : List Nat) (size : Nat) (h64 : hb.length = 64)
    (h0 : 0 < size) (hsz : size ≤ 128) :
    fixedReaderRead hb (List.replicate size 0) = some ((hb ++ hb).take size) := by
  have hw0 : writeInto (List.replicate size 0) 0 hb
      = hb.take size ++ List.replicate (size - min size 64) 0 := by
    simp [writeInto, goCopy, List.drop_replicate, h64]
  by_cases hle : size ≤ 64
  · have hz : size - min size 64 = 0 := by omega
    have hp1 : writeInto (List.replicate size 0) 0 hb = hb.take size := by
      rw [hw0, hz]
      simp
    simp only [fixedReaderRead, List.length_replicate, h64, hp1]
    have hmin : min size 64 = size := by omega
    rw [hmin]
    simp only [lt_irrefl, if_false]
    rw [List.take_append_of_le_length (by omega)]
  · have hlt : 64 < size := by omega
    have hmin : min size 64 = 64 := by omega
    have hp1 : writeInto (List.replicate size 0) 0 hb = hb ++ List.replicate (size - 64) 0 := by
      rw [hw0, hmin, List.take_of_length_le (by omega)]
    simp only [fixedReaderRead, List.length_replicate, h64, hp1, hmin, hlt, if_true]
    have hlen : (hb ++ List.replicate (size - 64) 0).length = size := by
      simp [h64]
      omega
    rw [fixedReaderLoop, hlen]
    simp only [hlt, if_true]
    have hslice : goSliceTo hb (size - 64) = some (hb.take (size - 64)) := by
      simp [goSliceTo, h64]
      omega
    have hp2 : writeInto (hb ++ List.replicate (size - 64) 0) 64 (hb.take (size - 64))
        = hb ++ hb.take (size - 64) := by
      have htk : (hb ++ List.replicate (size - 64) 0).take 64 = hb :=
        List.take_left' h64
      have hdp : (hb ++ List.replicate (size - 64) 0).drop 64 = List.replicate (size - 64) 0 :=
        List.drop_left' h64
      have hsrclen : (hb.take (size - 64)).length = size - 64 := by
        simp [h64]
        omega
      rw [writeInto, htk, hdp, goCopy, List.length_replicate, hsrclen,
        List.take_of_length_le (by omega), Nat.min_self, List.drop_replicate]
      simp
    simp only [hslice, hp2, h64]
    rw [fixedReaderLoop_done hb _ size (64 + 64) (by omega)
      (by simp [h64]; omega)]
    have hrhs : (hb ++ hb).take size = hb ++ hb.take (size - 64) := by
      rw [List.take_append_eq_append_take, List.take_of_length_le (by omega), h64]
    rw [hrhs]

/-! ## C2: generator determinism and the seed policy -/

/-- C2 counterexample: generateFixedData draws a fresh random seed from
crypto/rand on every call (src/unnamed/part_000 lines 45-48), so the seed is
not a fixed constant.  Two calls of the generator in two different rounds or
runs, where rand returned the all-zero and the all-one 32-byte seed, produce
different payloads — already the first generated byte is 0 under one seed and
1 under the other — refuting reproducibility across rounds and runs. -/
theorem generator_seed_counterexample :
    (generateFixedData sampleHash (List.replicate 32 0) 64).map (fun p => p.1.headD 0) =
      some 0 ∧
    (generateFixedData sampleHash (List.replicate 32 1) 64).map (fun p => p.1.headD 0) =
      some 1 ∧
    (0 : Nat) ≠ 1 :=
  ⟨by decide, by decide, by decide⟩

/-- C2 amended: for a fixed seed the generator is deterministic — on the
sizes where fixedReader.Read does not panic its output is the seed digest
tiled, a pure function of the seed and the length, so two calls with the same
seed and length give byte-identical output; and the seed of
generateFixedBlock (src/free_space_linux.go lines 92-93) is the fixed
constant string usb-hash-check-fixed-seed-2026 zero padded to 32 bytes.  What
fails in the original claim is only the seed policy of generateFixedData,
which redraws a random seed on each call. -/
theorem generator_determinism_amended (H : List Nat → List Nat) (s : List Nat) (size : Nat)
    (h64 : (H s).length = 64) (hsz : size ≤ 128) :
    generateFixedData H s size =
      some ((H s ++ H s).take size, H ((H s ++ H s).take size)) ∧
    generateFixedBlockSeed = fixedSeedString.toList.map Char.toNat ++ [0, 0] := by
  constructor
  · by_cases h0 : size = 0
    · subst h0
      simp [generateFixedData, generateFixedDataBuffer]
    · simp [generateFixedData, h0, generateFixedDataBuffer,
        fixedReaderRead_replicate (H s) size h64 (Nat.pos_of_ne_zero h0) hsz]
  · decide

/-- Witness for the amended C2 theorem at the concrete 64-byte hash, seed
value 5 and length 100. -/
theorem generator_determinism_amended_witness :
    (sampleHash [5]).length = 64 ∧ (100 : Nat) ≤ 128 ∧
    generateFixedData sampleHash [5] 100 =
      some ((sampleHash [5] ++ sampleHash [5]).take 100,
        sampleHash ((sampleHash [5] ++ sampleHash [5]).take 100)) :=
  ⟨by decide, by decide,
    (generator_determinism_amended sampleHash [5] 100 (by decide) (by decide)).1⟩

/-! ## C1: the Comparing phase -/

/-- C1 counterexample: a round of writeAndVerify on a medium that corrupts
every written byte to zero reaches the Comparing phase, the two digests
differ, and the round is reported as failed — but the reported error is the
fixed string of src/unnamed/part_000 line 261, and neither the write digest
nor the read-back digest (hex encoded, as the tool prints digests) occurs
anywhere in that report.  The claim that the failure is reported with both
digest values is therefore false on the code. -/
theorem comparing_phase_counterexample :
    writeAndVerifyRound sampleHash 1 104857664 [7] (fun d => List.replicate d.length 0) =
      some (Except.error checksumMismatchMsg) ∧
    sampleHash (sampleHash [7]) ≠ sampleHash (List.replicate 64 0) ∧
    occursInChars (hexChars (sampleHash (sampleHash [7]))) checksumMismatchMsg.toList = false ∧
    occursInChars (hexChars (sampleHash (List.replicate 64 0))) checksumMismatchMsg.toList = false := by
  exact ⟨rfl, by decide, by decide, by decide⟩

/-- C1 amended: for every round that reaches the Comparing phase (the sizing
step accepted the measurement and generateFixedData returned the payload and
its digest), the comparison of the write digest against the digest of the
bytes read back from the medium is byte exact, and any difference makes the
round a hard failure — reported with the fixed message of line 261, which
does not include the digest values (a matching round reports the hex write
digest). -/
theorem comparing_phase_amended (H : List Nat → List Nat) (blockSize freeSpace : Int)
    (seed data checksum : List Nat) (medium : List Nat → List Nat) (actualWriteSize : Int)
    (hsz : writeAndVerifySizing blockSize freeSpace = Except.ok actualWriteSize)
    (hgen : generateFixedData H seed actualWriteSize.toNat = some (data, checksum)) :
    writeAndVerifyRound H blockSize freeSpace seed medium =
      some (if H (medium data) ≠ checksum then Except.error checksumMismatchMsg
            else Except.ok (hexString checksum)) := by
  simp only [writeAndVerifyRound, hsz, hgen]
  split <;> rfl

/-- Witness for the amended C1 theorem at a concrete configuration whose
medium corrupts the data, checking the two hypotheses by evaluation. -/
theorem comparing_phase_amended_witness :
    writeAndVerifySizing 1 104857664 = Except.ok 64 ∧
    generateFixedData sampleHash [7] ((64 : Int)).toNat =
      some (sampleHash [7], sampleHash (sampleHash [7])) ∧
    writeAndVerifyRound sampleHash 1 104857664 [7] (fun d => List.replicate d.length 0) =
      some (if sampleHash ((fun d => List.replicate d.length 0) (sampleHash [7])) ≠
              sampleHash (sampleHash [7])
            then Except.error checksumMismatchMsg
            else Except.ok (hexString (sampleHash (sampleHash [7])))) :=
  ⟨rfl, by decide,
    comparing_phase_amended sampleHash 1 104857664 [7] (sampleHash [7])
      (sampleHash (sampleHash [7])) (fun d => List.replicate d.length 0) 64 rfl (by decide)⟩

/-! ## C3: the insufficient-space boundary -/

/-- C3 counterexample: with measured free space exactly equal to the 1 MiB
reserve, src/main.go line 192 uses a strict comparison, so the check passes,
the write target becomes 0, and writeFixedFile is still invoked: it creates
the file, performs a zero-byte write round (no data writes), syncs and
reports success.  The claim that free space at the reserve fails the round
before any write attempt is therefore false on the code. -/
theorem reserve_boundary_counterexample :
    mainGoSizing reserveSpace = some 0 ∧
    writeFixedFileRun 0 (fun _ => true) true = ([FsOp.create, FsOp.sync, FsOp.close], true) := by
  exact ⟨rfl, rfl⟩

/-- C3 amended: only strictly below the reserve does a round fail before any
write is attempted.  In src/main.go every measurement strictly below the
1 MiB reserve aborts the run before writeFixedFile is called, and in
src/unnamed/part_000 every measurement at or below its 100 MiB reserve makes
the sizing step of writeAndVerify fail (for a positive block size) before the
file is created. -/
theorem reserve_boundary_amended (freeSpace : Nat) (blockSize freeSpace2 : Int)
    (h1 : freeSpace < reserveSpace) (h2 : freeSpace2 ≤ 100 * 1024 * 1024) (h3 : 0 < blockSize) :
    mainGoSizing freeSpace = none ∧ (writeAndVerifySizing blockSize freeSpace2).toOption = none := by
  constructor
  · simp [mainGoSizing, h1]
  · rw [writeAndVerifySizing]
    split
    · rfl
    · rw [if_pos (by omega)]
      rfl

/-- Witness for the amended C3 theorem: 1000 bytes free on the main.go side,
50 MB free with the default 4 MiB block size on the part_000 side. -/
theorem reserve_boundary_amended_witness :
    (1000 : Nat) < reserveSpace ∧ (50000000 : Int) ≤ 100 * 1024 * 1024 ∧
    mainGoSizing 1000 = none ∧ (writeAndVerifySizing 4194304 50000000).toOption = none :=
  ⟨by decide, by decide,
    (reserve_boundary_amended 1000 4194304 50000000 (by decide) (by decide) (by decide)).1,
    (reserve_boundary_amended 1000 4194304 50000000 (by decide) (by decide) (by decide)).2⟩

/-! ## C4: behaviour on write failure -/

theorem writeFileToUsbLoopOps_no_remove (writeOk : Nat → Bool) (totalSize : Nat) :
    ∀ fuel written k,
      ((writeFileToUsbLoopOps writeOk totalSize fuel written k).1.all
        (fun op => !op.isRemove)) = true := by
  intro fuel
  induction fuel with
  | zero => intro written k; rfl
  | succ f ih =>
    intro written k
    simp only [writeFileToUsbLoopOps]
    split
    · split
      · dsimp only
        rw [List.all_cons, ih]
        rfl
      · rfl
    · rfl

theorem writeFixedFileLoopOps_fail_remove (blockSize : Nat) (writeOk : Nat → Bool) :
    ∀ fuel remaining k,
      (writeFixedFileLoopOps blockSize writeOk fuel remaining k).2 = false →
      ((writeFixedFileLoopOps blockSize writeOk fuel remaining k).1.any
        (fun op => op.isRemove)) = true := by
  intro fuel
  induction fuel with
  | zero => intro remaining k h; simp [writeFixedFileLoopOps] at h
  | succ f ih =>
    intro remaining k h
    simp only [writeFixedFileLoopOps] at h ⊢
    by_cases h0 : remaining = 0
    · simp [h0] at h
    · by_cases hw : writeOk k
      · simp only [if_neg h0, if_pos hw] at h ⊢
        rw [List.any_cons, ih _ _ h]
        rfl
      · simp only [if_neg h0, if_neg hw]
        rfl

/-- C4 counterexample: when the very first f.Write of writeFixedFile fails,
the writer itself calls os.Remove (src/main.go line 83): the run reports the
trace create, remove, close — the incompletely written file is deleted by the
writer, not left in place for the caller, refuting the claim. -/
theorem write_failure_cleanup_counterexample :
    writeFixedFileRun 5 (fun _ => false) true = ([FsOp.create, FsOp.remove, FsOp.close], false) ∧
    FsOp.remove ∈ (writeFixedFileRun 5 (fun _ => false) true).1 :=
  have h : writeFixedFileRun 5 (fun _ => false) true
      = ([FsOp.create, FsOp.remove, FsOp.close], false) := rfl
  ⟨h, by rw [h]; decide⟩

/-- C4 amended: on a write failure both writers abort immediately, and
writeFileToUsb leaves the incompletely written file in place (its event trace
never contains a remove); but writeFixedFile reacts to a failed write by
deleting the file itself (its failing traces contain a remove).  Neither
error carries the byte count written so far. -/
theorem write_failure_cleanup_amended :
    (∀ (writeOk : Nat → Bool) (totalSize : Nat),
      ((writeFileToUsbOps writeOk totalSize).1.all (fun op => !op.isRemove)) = true) ∧
    (∀ (blockSize freeSpace : Nat) (writeOk : Nat → Bool),
      (writeFixedFileOps blockSize freeSpace writeOk true).2 = false →
      ((writeFixedFileOps blockSize freeSpace writeOk true).1.any
        (fun op => op.isRemove)) = true) := by
  constructor
  · intro writeOk totalSize
    simp only [writeFileToUsbOps]
    rw [List.all_append, List.all_cons, writeFileToUsbLoopOps_no_remove]
    rfl
  · intro blockSize freeSpace writeOk h
    by_cases hr : (writeFixedFileLoopOps blockSize writeOk (freeSpace + 1) freeSpace 0).2
    · simp only [writeFixedFileOps, if_pos hr] at h
      exact absurd h (by simp)
    · rw [Bool.not_eq_true] at hr
      have hcond : ¬ ((writeFixedFileLoopOps blockSize writeOk (freeSpace + 1) freeSpace 0).2 = true) := by
        simp [hr]
      simp only [writeFixedFileOps, if_neg hcond]
      rw [List.any_append, List.any_cons,
        writeFixedFileLoopOps_fail_remove blockSize writeOk _ _ _ hr]
      rfl

/-- Witness for the amended C4 theorem: with block size 3 and target 5 and a
device rejecting every write, writeFixedFile fails and its trace contains the
remove issued by the writer itself. -/
theorem write_failure_cleanup_amended_witness :
    (writeFixedFileOps 3 5 (fun _ => false) true).2 = false ∧
    ((writeFixedFileOps 3 5 (fun _ => false) true).1.any (fun op => op.isRemove)) = true :=
  ⟨rfl, write_failure_cleanup_amended.2 3 5 (fun _ => false) rfl⟩

/-! ## C5: per-round free-space measurement -/

/-- C5 counterexample: in src/main.go the free space is measured once, before
the round loop (line 179), and the same value sizes all five rounds
(line 212).  With a query stream returning 2 MiB before the loop and 6 MiB at
every later call, round 2 (list index 1) is still sized from the stale 2 MiB
measurement: its target is 1048576 = q 0 - reserve, while a measurement taken
freshly in round 2 would give 6291456 - reserve = 5242880.  The measurement
is therefore cached across rounds, refuting the claim. -/
theorem free_space_caching_counterexample :
    mainGoRoundTargets (fun k => if k = 0 then 2097152 else 6291456) =
      some (List.replicate 5 1048576) ∧
    (List.replicate 5 (1048576 : Nat)).get? 1 = some 1048576 ∧
    ((fun k => if k = 0 then (2097152 : Nat) else 6291456) 1) - reserveSpace = 5242880 ∧
    (1048576 : Nat) ≠ 5242880 :=
  ⟨rfl, rfl, rfl, by decide⟩

/-- C5 amended: in src/unnamed/part_000 the claim holds — every element of
the round-result list produced by the main loop is computed from the free
space measurement queried inside that very round (query number i+j for the
round at list position j when the loop starts at round i), never from a
cached earlier measurement.  In src/main.go the claim fails: the single
pre-loop measurement sizes all rounds. -/
theorem fresh_query_amended (H : List Nat → List Nat) (blockSize : Int) (seed : Nat → List Nat)
    (medium : List Nat → List Nat) (q : Nat → Int) :
    ∀ (r i j : Nat) (res : Option (Except String String)),
      (part000Loop H blockSize seed medium q i r).get? j = some res →
      res = writeAndVerifyRound H blockSize (q (i + j)) (seed (i + j)) medium := by
  intro r
  induction r with
  | zero => intro i j res h; simp [part000Loop] at h
  | succ n ih =>
    intro i j res h
    simp only [part000Loop] at h
    by_cases hok : roundIsOk (writeAndVerifyRound H blockSize (q i) (seed i) medium)
    · rw [if_pos hok] at h
      cases j with
      | zero =>
        simp only [List.get?] at h
        cases h
        rfl
      | succ m =>
        simp only [List.get?] at h
        have := ih (i + 1) m res h
        rw [this]
        have harith : i + 1 + m = i + (m + 1) := by omega
        rw [harith]
    · rw [if_neg hok] at h
      cases j with
      | zero =>
        simp only [List.get?] at h
        cases h
        rfl
      | succ m => simp [List.get?] at h

/-- Witness for the amended C5 theorem: a one-round run at the concrete
configuration; the round result recorded at position 0 equals the round
computed from query number 0. -/
theorem fresh_query_amended_witness :
    (part000Loop sampleHash 1 (fun _ => [7]) id (fun _ => 104857664) 0 1).get? 0 =
      some (some (Except.ok (hexString (sampleHash (sampleHash [7]))))) ∧
    (some (Except.ok (hexString (sampleHash (sampleHash [7])))) :
        Option (Except String String)) =
      writeAndVerifyRound sampleHash 1 ((fun _ => (104857664 : Int)) (0 + 0))
        ((fun _ => ([7] : List Nat)) (0 + 0)) id :=
  have h : (part000Loop sampleHash 1 (fun _ => [7]) id (fun _ => 104857664) 0 1).get? 0 =
      some (some (Except.ok (hexString (sampleHash (sampleHash [7]))))) := rfl
  ⟨h, fresh_query_amended sampleHash 1 (fun _ => [7]) id (fun _ => 104857664) 1 0 0 _ h⟩

/-! ## C6: exact file sizes -/

theorem generateFixedBlockLoop_length (chunk : List Nat) (blockSize : Nat) :
    ∀ fuel block pos,
      (generateFixedBlockLoop chunk blockSize fuel block pos).length = block.length := by
  intro fuel
  induction fuel with
  | zero => intro block pos; rfl
  | succ f ih =>
    intro block pos
    simp only [generateFixedBlockLoop]
    split
    · split
      · exact writeInto_length ..
      · rw [ih, writeInto_length]
    · rfl

theorem generateFixedBlock_length (H : List Nat → List Nat) (blockSize : Nat) :
    (generateFixedBlock H blockSize).length = blockSize := by
  simp only [generateFixedBlock]
  rw [generateFixedBlockLoop_length]
  simp

theorem writeFixedFileContentLoop_length (block : List Nat) (hb : 0 < block.length) :
    ∀ fuel remaining, remaining ≤ fuel →
      (writeFixedFileContentLoop block fuel remaining).length = remaining := by
  intro fuel
  induction fuel with
  | zero =>
    intro remaining h
    have h0 : remaining = 0 := by omega
    subst h0
    rfl
  | succ f ih =>
    intro remaining h
    by_cases h0 : remaining = 0
    · subst h0
      rfl
    · simp only [writeFixedFileContentLoop, if_neg h0]
      have hws1 : fixedWriteSize block.length remaining ≤ block.length := by
        rw [fixedWriteSize]; split <;> omega
      have hws2 : 0 < fixedWriteSize block.length remaining := by
        rw [fixedWriteSize]; split <;> omega
      have hws3 : fixedWriteSize block.length remaining ≤ remaining := by
        rw [fixedWriteSize]; split <;> omega
      rw [List.length_append, List.length_take, ih _ (by omega)]
      omega

theorem writeFileToUsbContentLoop_length (fb : List Nat) (totalSize : Nat)
    (hfb : fb.length = chunkSize) :
    ∀ fuel written, totalSize - written ≤ fuel →
      (writeFileToUsbContentLoop fb totalSize fuel written).length = totalSize - written := by
  have hchunk : 0 < chunkSize := by decide
  intro fuel
  induction fuel with
  | zero =>
    intro written h
    have h0 : totalSize - written = 0 := by omega
    rw [h0]
    rfl
  | succ f ih =>
    intro written h
    by_cases hlt : written < totalSize
    · simp only [writeFileToUsbContentLoop, if_pos hlt]
      have hws1 : usbWriteSize totalSize written ≤ chunkSize := by
        rw [usbWriteSize]; split <;> omega
      have hws2 : 0 < usbWriteSize totalSize written := by
        rw [usbWriteSize]; split <;> omega
      have hws3 : usbWriteSize totalSize written ≤ totalSize - written := by
        rw [usbWriteSize]; split <;> omega
      rw [List.length_append, List.length_take, hfb, ih _ (by omega)]
      omega
    · simp only [writeFileToUsbContentLoop, if_neg hlt]
      have h0 : totalSize - written = 0 := by omega
      rw [h0]
      rfl

/-- C6: for every target size S that is not a multiple of the block size,
both chunked writers produce a file of exactly S bytes — the final block is
clipped exactly to the remaining byte count (src/main.go lines 75-78,
src/free_space_linux.go lines 144-149), with no over-write and no
under-write. -/
theorem chunked_write_exact_size (S : Nat) (H : List Nat → List Nat)
    (h1 : S % fixedDataBlock.length ≠ 0) (h2 : S % chunkSize ≠ 0) :
    (writeFixedFileContent S).length = S ∧ (writeFileToUsbContent H S).length = S := by
  constructor
  · have hb : 0 < fixedDataBlock.length := by rw [fixedDataBlock_length]; decide
    exact writeFixedFileContentLoop_length fixedDataBlock hb (S + 1) S (by omega)
  · have hlen := writeFileToUsbContentLoop_length (generateFixedBlock H chunkSize) S
      (generateFixedBlock_length H chunkSize) (S + 1) 0 (by omega)
    simpa [writeFileToUsbContent] using hlen

/-- Witness for the C6 theorem at S = 5, which is a multiple of neither
block size. -/
theorem chunked_write_exact_size_witness :
    (5 : Nat) % fixedDataBlock.length ≠ 0 ∧ (5 : Nat) % chunkSize ≠ 0 ∧
    (writeFixedFileContent 5).length = 5 ∧ (writeFileToUsbContent sampleHash 5).length = 5 :=
  have h1 : (5 : Nat) % fixedDataBlock.length ≠ 0 := by rw [fixedDataBlock_length]; decide
  have h2 : (5 : Nat) % chunkSize ≠ 0 := by decide
  ⟨h1, h2, (chunked_write_exact_size 5 sampleHash h1 h2).1,
    (chunked_write_exact_size 5 sampleHash h1 h2).2⟩

/-! ## C7: memory bounded by block size -/

theorem writeFileToUsbLoopOps_write_bounded (writeOk : Nat → Bool) (totalSize : Nat) :
    ∀ fuel written k,
      ((writeFileToUsbLoopOps writeOk totalSize fuel written k).1.all
        (fun op => decide (op.writeLen ≤ chunkSize))) = true := by
  intro fuel
  induction fuel with
  | zero => intro written k; rfl
  | succ f ih =>
    intro written k
    simp only [writeFileToUsbLoopOps]
    split
    · split
      · dsimp only
        rw [List.all_cons, ih, Bool.and_true]
        apply decide_eq_true
        show FsOp.writeLen (FsOp.write (usbWriteSize totalSize written)) ≤ chunkSize
        simp only [FsOp.writeLen]
        rw [usbWriteSize]
        split <;> omega
      · rfl
    · rfl

/-- C7 counterexample: generateFixedData materialises the whole payload in a
single buffer — data := make([]byte, size) at src/unnamed/part_000 line 57 —
so for a target of 8 MiB the working buffer holds 8388608 bytes, which
exceeds the 4 MiB default block size of the tool (line 30).  Memory use of
generation grows with the total size, not with the block size, refuting the
claim for this variant. -/
theorem memory_bound_counterexample :
    (generateFixedDataBuffer 8388608).length = 8388608 ∧ (4194304 : Nat) < 8388608 := by
  constructor
  · show (List.replicate 8388608 0).length = 8388608
    exact List.length_replicate ..
  · decide

/-- C7 amended: in the free_space_linux.go variant the bound holds — every
write issued by writeFileToUsb transfers at most chunkSize bytes, for every
target size — but generateFixedData of src/unnamed/part_000 allocates a
buffer of exactly the full target size, so its memory is bounded by the total
size, not the block size. -/
theorem memory_bound_amended :
    (∀ (writeOk : Nat → Bool) (totalSize : Nat),
      ((writeFileToUsbOps writeOk totalSize).1.all
        (fun op => decide (op.writeLen ≤ chunkSize))) = true) ∧
    (∀ size : Nat, (generateFixedDataBuffer size).length = size) := by
  constructor
  · intro writeOk totalSize
    simp only [writeFileToUsbOps]
    rw [List.all_append, List.all_cons, writeFileToUsbLoopOps_write_bounded]
    rfl
  · intro size
    simp [generateFixedDataBuffer]

/-! ## C8: side effects of the free-space probe -/

/-- C8 counterexample: the probe getDiskFreeSpace of src/unnamed/part_000
measures free space by creating the temp file .tmp_space_check, writing 1 MiB
buffers until the disk is full, and then deleting the file.  On a device that
accepts exactly 1 MiB more data, the probe performs a create, a 1 MiB write
and a remove — so querying available bytes creates, writes and deletes on the
target filesystem, refuting the claim for this probe. -/
theorem probe_side_effects_counterexample :
    getDiskFreeSpaceOps 1048576 =
      ([FsOp.create, FsOp.write 1048576, FsOp.remove, FsOp.close], 1048576) := rfl

/-- C8 amended: the statfs probe getLinuxFreeSpace is side-effect free — it
returns Bsize * Bavail and performs no filesystem operation — but the probe
of src/unnamed/part_000 is not: its first action on every run is to create
the temporary probe file. -/
theorem probe_side_effects_amended :
    (∀ bsize bavail : Nat, getLinuxFreeSpace bsize bavail = ([], bsize * bavail)) ∧
    (∀ cap : Nat, (getDiskFreeSpaceOps cap).1.head? = some FsOp.create) :=
  ⟨fun _ _ => rfl, fun _ => rfl⟩

/-! ## C9: durability flush before success -/

theorem writeFixedFileLoopOps_ok_writes (blockSize : Nat) (writeOk : Nat → Bool) :
    ∀ fuel remaining k,
      (writeFixedFileLoopOps blockSize writeOk fuel remaining k).2 = true →
      ((writeFixedFileLoopOps blockSize writeOk fuel remaining k).1.all FsOp.isWrite) = true := by
  intro fuel
  induction fuel with
  | zero => intro remaining k h; rfl
  | succ f ih =>
    intro remaining k h
    simp only [writeFixedFileLoopOps] at h ⊢
    by_cases h0 : remaining = 0
    · rw [if_pos h0]
      rfl
    · by_cases hw : writeOk k
      · simp only [if_neg h0, if_pos hw] at h ⊢
        rw [List.all_cons, ih _ _ h]
        rfl
      · simp only [if_neg h0, if_neg hw] at h
        exact absurd h (by simp)

/-- C9 counterexample: writeFileToUsb contains no durability flush at all —
a fully successful run over a 5-byte target returns success with the trace
create, write, close, in which no sync event occurs — so verification in
runSingleTest starts without any flush having been performed, refuting the
claim for this writer. -/
theorem durability_flush_counterexample :
    writeFileToUsbOps (fun _ => true) 5 = ([FsOp.create, FsOp.write 5, FsOp.close], some 5) ∧
    (([FsOp.create, FsOp.write 5, FsOp.close] : List FsOp).all (fun op => !op.isSync)) = true :=
  ⟨rfl, by decide⟩

/-- C9 amended: writeFixedFile of src/main.go satisfies the claim — every
successful run produces the trace create, data writes, sync, close: the
f.Sync of line 95 happens after the whole write loop and before success is
returned (and main only starts calculateSHA1 after that return).  The
writeFileToUsb writer of free_space_linux.go performs no flush at all. -/
theorem durability_flush_amended (blockSize freeSpace : Nat) (writeOk : Nat → Bool)
    (h : (writeFixedFileOps blockSize freeSpace writeOk true).2 = true) :
    (writeFixedFileOps blockSize freeSpace writeOk true).1 =
      FsOp.create :: (writeFixedFileLoopOps blockSize writeOk (freeSpace + 1) freeSpace 0).1
        ++ [FsOp.sync, FsOp.close] ∧
    ((writeFixedFileLoopOps blockSize writeOk (freeSpace + 1) freeSpace 0).1.all
      FsOp.isWrite) = true := by
  by_cases hr : (writeFixedFileLoopOps blockSize writeOk (freeSpace + 1) freeSpace 0).2 = true
  · constructor
    · simp only [writeFixedFileOps, if_pos hr]
      rw [if_pos trivial]
    · exact writeFixedFileLoopOps_ok_writes blockSize writeOk _ _ _ hr
  · exfalso
    simp only [writeFixedFileOps, if_neg hr] at h
    exact absurd h (by simp)

/-- Witness for the amended C9 theorem: block size 3, target 5, all writes
accepted; the successful trace is create, write 3, write 2, sync, close. -/
theorem durability_flush_amended_witness :
    (writeFixedFileOps 3 5 (fun _ => true) true).2 = true ∧
    (writeFixedFileOps 3 5 (fun _ => true) true).1 =
      FsOp.create :: (writeFixedFileLoopOps 3 (fun _ => true) (5 + 1) 5 0).1
        ++ [FsOp.sync, FsOp.close] ∧
    ((writeFixedFileLoopOps 3 (fun _ => true) (5 + 1) 5 0).1.all FsOp.isWrite) = true :=
  have h : (writeFixedFileOps 3 5 (fun _ => true) true).2 = true := rfl
  ⟨h, (durability_flush_amended 3 5 (fun _ => true) h).1,
    (durability_flush_amended 3 5 (fun _ => true) h).2⟩

end UsbCheck
